import Mathlib

/-!
Shallow embedding of the STRM/subtitle cleanup plugin
(`plugins/removelink/__init__.py`): path-mapping parsing and resolution,
the two directory matchers, per-file deletion, the event handlers and the
deletion-event dispatch. Python strings are modelled as Lean `String`, with
the string primitives the code uses (split, strip, startswith, endswith,
lower, slicing) re-implemented structurally over `List Char` so that every
definition evaluates by kernel reduction. The storage gateway
(`StorageChain`) is an external capability: it is modelled as a record of
functions supplied to each operation.
-/

/-- Python whitespace characters recognised by `str.strip()`. -/
def pyWhitespace (c : Char) : Bool :=
  c = ' ' || c = '\t' || c = '\n' || c = '\r' || c = '\x0b' || c = '\x0c'

/-- Strip whitespace from both ends of a character list. -/
def trimL (cs : List Char) : List Char :=
  ((cs.dropWhile pyWhitespace).reverse.dropWhile pyWhitespace).reverse

/-- Python `str.strip()`. -/
def pyStrip (s : String) : String := ⟨trimL s.data⟩

/-- Split a character list on a separator character (Python `str.split(sep)`,
an empty input yields one empty field). -/
def splitCharL (sep : Char) : List Char → List (List Char)
  | [] => [[]]
  | c :: cs =>
    if c = sep then [] :: splitCharL sep cs
    else
      match splitCharL sep cs with
      | [] => [[c]]
      | g :: gs => (c :: g) :: gs

/-- Python `s.split(sep)` for a one-character separator. -/
def pySplit (sep : Char) (s : String) : List String :=
  (splitCharL sep s.data).map (fun g => ⟨g⟩)

/-- Join strings with `:` between them. -/
def joinColon : List String → String
  | [] => ""
  | [x] => x
  | x :: xs => x ++ ":" ++ joinColon xs

/-- Python `line.split(":", 2)`: at most two splits, the tail keeps its colons. -/
def pySplitColon2 (s : String) : List String :=
  match pySplit ':' s with
  | [a] => [a]
  | [a, b] => [a, b]
  | a :: b :: rest => [a, b, joinColon rest]
  | [] => [s]

/-- Does the first list occur at the start of the second? -/
def startsWithL : List Char → List Char → Bool
  | [], _ => true
  | _ :: _, [] => false
  | a :: as, b :: bs => a = b && startsWithL as bs

/-- Python `s.startswith(p)`. -/
def pyStartswith (s p : String) : Bool := startsWithL p.data s.data

/-- Does the first list occur contiguously somewhere in the second?
(Python `sub in s`). -/
def containsL : List Char → List Char → Bool
  | sub, [] => sub.isEmpty
  | sub, c :: cs => startsWithL sub (c :: cs) || containsL sub cs

/-- Python `sub in s` substring containment. -/
def pyContains (s sub : String) : Bool := containsL sub.data s.data

/-- Python `s.lower()` (ASCII). -/
def pyLower (s : String) : String := ⟨s.data.map Char.toLower⟩

/-- Python `s.endswith(suf)`. -/
def pyEndswith (s suf : String) : Bool :=
  startsWithL suf.data.reverse s.data.reverse

/-- Python `s[:-n]` for `n > 0`: drop the last `n` characters. -/
def pyDropRight (s : String) (n : Nat) : String :=
  ⟨s.data.take (s.data.length - n)⟩

/-- Python `s[n:]`: drop the first `n` characters. -/
def pyDropChars (s : String) (n : Nat) : String := ⟨s.data.drop n⟩

/-- Python `len(s)` in characters. -/
def pyLen (s : String) : Nat := s.data.length

/-- Python `s.lstrip("/")`. -/
def pyLstripSlash (s : String) : String :=
  ⟨s.data.dropWhile (fun c => c = '/')⟩

/-- Python `s.rstrip("/")`. -/
def pyRstripSlash (s : String) : String :=
  ⟨(s.data.reverse.dropWhile (fun c => c = '/')).reverse⟩

/-- Join path components with `/`. -/
def joinSlash : List String → String
  | [] => ""
  | [x] => x
  | x :: xs => x ++ "/" ++ joinSlash xs

/-- The non-empty, non-`.` components of a path, as in `pathlib.PurePath.parts`
(anchor excluded). -/
def pathParts (s : String) : List String :=
  (pySplit '/' s).filter (fun p => p ≠ "" && p ≠ ".")

/-- Does the path start with `/`? -/
def pathIsAbs (s : String) : Bool := pyStartswith s "/"

/-- `pathlib.Path(s).name`: the final path component (empty for a root). -/
def pathName (s : String) : String := ((pathParts s).getLast?).getD ""

/-- `str(pathlib.Path(s).parent)`. -/
def pathParent (s : String) : String :=
  match (pathParts s).dropLast, pathIsAbs s with
  | [], true => "/"
  | [], false => "."
  | ps, true => "/" ++ joinSlash ps
  | ps, false => joinSlash ps

/-- Split a name at its last dot: `some (before, after)`, dot excluded. -/
def lastDotSplit : List Char → Option (List Char × List Char)
  | [] => none
  | c :: rest =>
    match lastDotSplit rest with
    | some (b, a) => some (c :: b, a)
    | none => if c = '.' then some ([], rest) else none

/-- `pathlib.Path(name).suffix` on a bare file name: the extension including
the dot, or empty when the last dot is leading, trailing or absent. -/
def pySuffix (nm : String) : String :=
  match lastDotSplit nm.data with
  | some (b, a) => if b ≠ [] && a ≠ [] then ⟨'.' :: a⟩ else ""
  | none => ""

/-- `pathlib.Path(name).stem` on a bare file name. -/
def pyStem (nm : String) : String :=
  match lastDotSplit nm.data with
  | some (b, a) => if b ≠ [] && a ≠ [] then ⟨b⟩ else nm
  | none => nm

/-- One mapping rule: `(local_path, storage_type, storage_path)`, in the
order the parsed table holds them. -/
abbrev MappingRule := String × String × String

/-- A directory entry / file reference as the gateway returns it
(`schemas.FileItem`, restricted to the fields the plugin consumes). -/
structure FileItem where
  storage : String := ""
  path : String := ""
  name : String := ""
  type : String := ""
deriving Repr, DecidableEq

/-- The storage gateway capability (`StorageChain`): directory existence,
non-recursive listing, and deletion, which may raise (`Except.error`) or
report failure (`Except.ok false`). -/
structure StorageChain where
  existsDir : FileItem → Bool
  listFiles : FileItem → List FileItem
  deleteFile : FileItem → Except String Bool

/-- `RemoveLink.VIDEO_EXTENSIONS`. -/
def VIDEO_EXTENSIONS : List String :=
  [".mkv", ".mp4", ".ts", ".m2ts", ".avi", ".mov", ".flv", ".wmv", ".mpeg", ".mpg"]

/-- Temporary-file suffix denylist from `FileMonitorHandler._is_excluded_file`. -/
def TEMP_SUFFIXES : List String := [".!qB", ".part", ".mp", ".tmp", ".temp"]

/-- Python dict assignment `d[k] = v` on an insertion-ordered table: an
existing key keeps its position and gets the new value, a new key is
appended. -/
def dictInsert (d : List MappingRule) (k : String) (v : String × String) :
    List MappingRule :=
  if d.any (fun e => e.1 == k) then
    d.map (fun e => if e.1 == k then (k, v.1, v.2) else e)
  else d ++ [(k, v.1, v.2)]

/-- The rule one configuration line contributes, or `none` when the line is
skipped (`_parse_strm_path_mappings` loop body, per line). -/
def parsedRuleOfLine (rawLine : String) : Option MappingRule :=
  let line := pyStrip rawLine
  if line == "" then none
  else if !(pyContains line ":") then none
  else
    match pySplitColon2 line with
    | [lp, sp] =>
      let local_path := pyStrip lp
      if local_path == "" then none
      else some (local_path, "local", pyStrip sp)
    | [lp, st, sp] =>
      let local_path := pyStrip lp
      if local_path == "" then none
      else some (local_path, pyStrip st, pyStrip sp)
    | _ => none

/-- One step of the parsing loop: skip the line or assign into the table. -/
def parseMappingLine (acc : List MappingRule) (rawLine : String) :
    List MappingRule :=
  match parsedRuleOfLine rawLine with
  | none => acc
  | some (k, st, sp) => dictInsert acc k (st, sp)

/-- Fold the parsing loop over a list of lines. -/
def parseLines (lines : List String) : List MappingRule :=
  lines.foldl parseMappingLine []

/-- `RemoveLink._parse_strm_path_mappings`: the insertion-ordered mapping
table parsed from the raw configuration text. -/
def parse_strm_path_mappings (strm_path_mappings : String) : List MappingRule :=
  if strm_path_mappings == "" then []
  else parseLines (pySplit '\n' strm_path_mappings)

/-- Does a rule's sourceRoot literally start the given path
(`local_path_str.startswith(local_prefix)`)? -/
def ruleMatches (rule : MappingRule) (local_path_str : String) : Bool :=
  pyStartswith local_path_str rule.1

/-- The relative part a matched rule contributes: path minus sourceRoot,
leading slashes stripped, and `.strm` removed case-insensitively when
`keep_suffix` is false. -/
def relativeOf (rule : MappingRule) (local_path_str : String)
    (keep_suffix : Bool) : String :=
  let relative0 := pyLstripSlash (pyDropChars local_path_str (pyLen rule.1))
  if !keep_suffix && pyEndswith (pyLower relative0) ".strm" then
    pyDropRight relative0 5
  else relative0

/-- The `(storage_type, target_path)` a matched rule resolves to. -/
def resolveRule (rule : MappingRule) (local_path_str : String)
    (keep_suffix : Bool) : String × String :=
  (rule.2.1,
   pyRstripSlash rule.2.2 ++ "/" ++ relativeOf rule local_path_str keep_suffix)

/-- `RemoveLink._get_target_path`: re-parse the mapping text, scan the table
in order, resolve with the first rule whose sourceRoot starts the path;
`none` models the `(None, None)` miss. -/
def get_target_path (strm_path_mappings : String) (local_file_path : String)
    (keep_suffix : Bool) : Option (String × String) :=
  match (parse_strm_path_mappings strm_path_mappings).find?
      (fun rule => ruleMatches rule local_file_path) with
  | some rule => some (resolveRule rule local_file_path keep_suffix)
  | none => none

/-- The directory `FileItem` both matchers build for the parent of a target
path (trailing slash normalised). -/
def dirItemOfTarget (storage_type target_path : String) : FileItem :=
  let target_dir := pathParent target_path
  { storage := storage_type,
    path := if pyEndswith target_dir "/" then target_dir else target_dir ++ "/",
    name := "",
    type := "dir" }

/-- `RemoveLink._find_file_by_full_name`: first file-kind entry whose name
equals the target's file name verbatim; `none` when the directory is absent
or nothing matches. -/
def find_file_by_full_name (chain : StorageChain)
    (storage_type target_path : String) : Option FileItem :=
  let target_filename := pathName target_path
  let dir_item := dirItemOfTarget storage_type target_path
  if !(chain.existsDir dir_item) then none
  else (chain.listFiles dir_item).find?
    (fun f => f.type == "file" && f.name == target_filename)

/-- The per-entry predicate of `_find_video_by_basename`: file kind,
extension-stripped name equal to the basename, extension (lower-cased) in
the video whitelist. -/
def videoMatch (base_name : String) (f : FileItem) : Bool :=
  f.type == "file" && pyStem f.name == base_name
    && VIDEO_EXTENSIONS.contains (pyLower (pySuffix f.name))

/-- `RemoveLink._find_video_by_basename`: every file-kind entry whose stem
equals the target's basename and whose extension is an allowed video
extension; `[]` when the directory is absent. -/
def find_video_by_basename (chain : StorageChain)
    (storage_type target_path : String) : List FileItem :=
  let base_name := pathName target_path
  let dir_item := dirItemOfTarget storage_type target_path
  if !(chain.existsDir dir_item) then []
  else (chain.listFiles dir_item).filter (videoMatch base_name)

/-- `RemoveLink._delete_file`: invoke the gateway delete, catching a raised
error as failure, and report success as a boolean. -/
def delete_file (chain : StorageChain) (file_item : FileItem) : Bool :=
  match chain.deleteFile file_item with
  | Except.ok b => b
  | Except.error _ => false

/-- Observable outcome of one handler run: the per-entry delete attempts in
order, the recorded success lines, and whether a notification was posted. -/
structure HandlerResult where
  attempts : List (FileItem × Bool) := []
  deleted_files : List String := []
  notified : Bool := false
deriving Repr, DecidableEq

/-- `RemoveLink.handle_strm_deleted`: resolve without suffix, find all
same-stem videos, delete each independently, record successes, notify only
when enabled and something was deleted. -/
def handle_strm_deleted (notify : Bool) (strm_path_mappings : String)
    (chain : StorageChain) (strm_file_path : String) : HandlerResult :=
  match get_target_path strm_path_mappings strm_file_path false with
  | none => {}
  | some (storage_type, target_path) =>
    if storage_type == "" || target_path == "" then {}
    else
      let video_files := find_video_by_basename chain storage_type target_path
      let attempts := video_files.map (fun v => (v, delete_file chain v))
      let deleted_files := attempts.filterMap (fun a =>
        if a.2 then some ("视频：[" ++ storage_type ++ "] " ++ a.1.path) else none)
      { attempts := attempts,
        deleted_files := deleted_files,
        notified := notify && !deleted_files.isEmpty }

/-- `RemoveLink.handle_subtitle_deleted`: resolve keeping the suffix, find
the single exact-name companion, delete it, notify only when enabled and
the delete succeeded. -/
def handle_subtitle_deleted (notify : Bool) (strm_path_mappings : String)
    (chain : StorageChain) (subtitle_file_path : String) : HandlerResult :=
  match get_target_path strm_path_mappings subtitle_file_path true with
  | none => {}
  | some (storage_type, target_path) =>
    if storage_type == "" || target_path == "" then {}
    else
      match find_file_by_full_name chain storage_type target_path with
      | none => {}
      | some subtitle_file =>
        let ok := delete_file chain subtitle_file
        let deleted_files :=
          if ok then ["字幕：[" ++ storage_type ++ "] " ++ subtitle_file.path]
          else []
        { attempts := [(subtitle_file, ok)],
          deleted_files := deleted_files,
          notified := notify && !deleted_files.isEmpty }

/-- `FileMonitorHandler._is_excluded_file`: temporary-file suffixes and
configured exclusion keywords (literal substrings, one per line). -/
def is_excluded_file (exclude_keywords : String) (file_path : String) : Bool :=
  if TEMP_SUFFIXES.contains (pySuffix (pathName file_path)) then true
  else if exclude_keywords != "" then
    (pySplit '\n' exclude_keywords).any
      (fun keyword => keyword != "" && pyContains file_path keyword)
  else false

/-- What the dispatcher decides to do with one deletion event. -/
inductive DispatchAction where
  | skip
  | handleStrm
  | handleSubtitle
deriving Repr, DecidableEq

/-- `FileMonitorHandler.on_deleted`: drop directory events, drop excluded
paths, then classify by lower-cased extension. -/
def on_deleted (exclude_keywords : String) (is_directory : Bool)
    (src_path : String) : DispatchAction :=
  if is_directory then DispatchAction.skip
  else
    let file_ext := pyLower (pySuffix (pathName src_path))
    if is_excluded_file exclude_keywords src_path then DispatchAction.skip
    else if file_ext == ".strm" then DispatchAction.handleStrm
    else if [".srt", ".ass"].contains file_ext then DispatchAction.handleSubtitle
    else DispatchAction.skip

/-- The whole per-event pipeline: dispatch, then run the selected handler. -/
def process_event (notify : Bool) (exclude_keywords strm_path_mappings : String)
    (chain : StorageChain) (is_directory : Bool) (src_path : String) :
    HandlerResult :=
  match on_deleted exclude_keywords is_directory src_path with
  | DispatchAction.skip => {}
  | DispatchAction.handleStrm =>
      handle_strm_deleted notify strm_path_mappings chain src_path
  | DispatchAction.handleSubtitle =>
      handle_subtitle_deleted notify strm_path_mappings chain src_path

example : parse_strm_path_mappings "/a:/x\n/a/b:/y"
    = [("/a", "local", "/x"), ("/a/b", "local", "/y")] := by decide

example : get_target_path "/a:/x\n/a/b:/y" "/a/b/c.ext" true
    = some ("local", "/x/b/c.ext") := by decide

example : get_target_path "/a:/x" "/a/movie.strm" false
    = some ("local", "/x/movie") := by decide

example : parse_strm_path_mappings "a:b:c:d" = [("a", "b", "c:d")] := by decide

theorem find?_append_of_false {α : Type} (f : α → Bool) (l1 l2 : List α)
    (h : ∀ x ∈ l1, f x = false) : (l1 ++ l2).find? f = l2.find? f := by
  induction l1 with
  | nil => rfl
  | cons a as ih =>
      have ha : f a = false := h a (List.mem_cons_self a as)
      simp only [List.cons_append, List.find?, ha]
      exact ih (fun x hx => h x (List.mem_cons_of_mem a hx))

/-- C1: resolution scans the parsed table in configuration order and selects
the first rule whose sourceRoot literally starts the path, never a later
more-specific rule; with rules `/a:/x` then `/a/b:/y`, `/a/b/c.ext` resolves
under `/x`, never `/y`. -/
theorem C1_first_match_wins (m p : String) (keep_suffix : Bool)
    (pre post : List MappingRule) (rule : MappingRule)
    (htable : parse_strm_path_mappings m = pre ++ rule :: post)
    (hpre : ∀ r ∈ pre, ruleMatches r p = false)
    (hrule : ruleMatches rule p = true) :
    get_target_path m p keep_suffix = some (resolveRule rule p keep_suffix)
    ∧ get_target_path "/a:/x\n/a/b:/y" "/a/b/c.ext" keep_suffix
        = some ("local", "/x/b/c.ext")
    ∧ pyStartswith "/x/b/c.ext" "/x/" = true
    ∧ pyStartswith "/x/b/c.ext" "/y" = false := by
  refine ⟨?_, ?_, by decide, by decide⟩
  · unfold get_target_path
    rw [htable, find?_append_of_false _ _ _ hpre]
    simp only [List.find?, hrule]
  · cases keep_suffix <;> decide

/-- C1 witness: the general first-match theorem applied to the two-rule
example table at the path `/a/b/c.ext`. -/
theorem C1_first_match_wins_witness :
    get_target_path "/a:/x\n/a/b:/y" "/a/b/c.ext" true
      = some (resolveRule ("/a", "local", "/x") "/a/b/c.ext" true) :=
  (C1_first_match_wins "/a:/x\n/a/b:/y" "/a/b/c.ext" true []
    [("/a/b", "local", "/y")] ("/a", "local", "/x")
    (by decide) (by intro r hr; cases hr) (by decide)).1

/-- C2: for a covered path, resolving without suffix-stripping appends the
relative part unchanged, while resolving with stripping removes a trailing
`.strm` case-insensitively and only then; `/a/movie.strm` under `/a:/x`
yields `/x/movie` when stripping and `/x/movie.strm` when not. -/
theorem C2_suffix_strip (m p : String) (rule : MappingRule)
    (hfind : (parse_strm_path_mappings m).find? (fun r => ruleMatches r p)
      = some rule) :
    get_target_path m p true
      = some (rule.2.1, pyRstripSlash rule.2.2 ++ "/" ++ relativeOf rule p true)
    ∧ relativeOf rule p true = pyLstripSlash (pyDropChars p (pyLen rule.1))
    ∧ (pyEndswith (pyLower (relativeOf rule p true)) ".strm" = true →
        get_target_path m p false
          = some (rule.2.1, pyRstripSlash rule.2.2 ++ "/"
              ++ pyDropRight (relativeOf rule p true) 5))
    ∧ (pyEndswith (pyLower (relativeOf rule p true)) ".strm" = false →
        get_target_path m p false
          = some (rule.2.1, pyRstripSlash rule.2.2 ++ "/" ++ relativeOf rule p true))
    ∧ get_target_path "/a:/x" "/a/movie.strm" false = some ("local", "/x/movie")
    ∧ get_target_path "/a:/x" "/a/movie.strm" true = some ("local", "/x/movie.strm")
    ∧ get_target_path "/a:/x" "/a/MOVIE.STRM" false = some ("local", "/x/MOVIE") := by
  have hrel : relativeOf rule p true = pyLstripSlash (pyDropChars p (pyLen rule.1)) := by
    simp [relativeOf]
  refine ⟨?_, hrel, ?_, ?_, by decide, by decide, by decide⟩
  · simp [get_target_path, hfind, resolveRule]
  · intro h
    rw [hrel] at h
    simp [get_target_path, hfind, resolveRule, relativeOf, h, hrel]
  · intro h
    rw [hrel] at h
    simp [get_target_path, hfind, resolveRule, relativeOf, h, hrel]

/-- C2 witness: both resolution modes evaluated on `/a/movie.strm` under the
mapping `/a:/x`. -/
theorem C2_suffix_strip_witness :
    get_target_path "/a:/x" "/a/movie.strm" false = some ("local", "/x/movie")
    ∧ get_target_path "/a:/x" "/a/movie.strm" true
        = some ("local", "/x/movie.strm") := by
  have h := C2_suffix_strip "/a:/x" "/a/movie.strm" ("/a", "local", "/x")
    (by decide)
  exact ⟨h.2.2.2.2.1, h.2.2.2.2.2.1⟩

/-- C5 counterexample: a line with four colon-separated fields is not skipped;
`a:b:c:d` parses, with the third field absorbing the extra colon. -/
theorem C5_more_than_three_fields_not_skipped :
    parse_strm_path_mappings "a:b:c:d" = [("a", "b", "c:d")]
    ∧ parse_strm_path_mappings "a:b:c:d" ≠ [] := ⟨by decide, by decide⟩

/-- C5 (amended): parsing skips malformed lines without aborting the rest of
the table — a line with no colon or with an empty sourceRoot after trimming
contributes nothing and every other line still parses — while a line with
more than three colon-separated fields is not skipped: the split is capped
at the first two colons, so the third field absorbs the remaining colons. -/
theorem C5_skip_malformed_lines (pfx sfx : List String) (bad : String)
    (h : parsedRuleOfLine bad = none) :
    parseLines (pfx ++ bad :: sfx) = parseLines (pfx ++ sfx)
    ∧ parsedRuleOfLine "no colon here" = none
    ∧ parsedRuleOfLine "   :/target" = none
    ∧ parse_strm_path_mappings "a:b:c:d" = [("a", "b", "c:d")] := by
  refine ⟨?_, by decide, by decide, by decide⟩
  have hstep : ∀ acc, parseMappingLine acc bad = acc := by
    intro acc; simp [parseMappingLine, h]
  unfold parseLines
  rw [List.foldl_append, List.foldl_append]
  simp only [List.foldl_cons, hstep]

/-- C5 witness: removing a colon-free middle line does not change what the
surrounding lines parse to. -/
theorem C5_skip_malformed_lines_witness :
    parseLines (["/a:/x"] ++ "no colon" :: ["/b:/y"])
      = parseLines (["/a:/x"] ++ ["/b:/y"]) :=
  (C5_skip_malformed_lines ["/a:/x"] ["/b:/y"] "no colon" (by decide)).1

theorem find?_overwriteMap (k : String) (v : String × String)
    (d : List MappingRule) :
    (d.map (fun e => if e.1 == k then (k, v.1, v.2) else e)).find?
        (fun e => e.1 == k)
      = if d.any (fun e => e.1 == k) then some (k, v.1, v.2) else none := by
  induction d with
  | nil => simp
  | cons a as ih =>
    by_cases ha : a.1 = k
    · have ha' : (a.1 == k) = true := by simp [ha]
      simp only [List.map_cons, List.any_cons, ha', Bool.true_or, reduceIte,
        List.find?, beq_self_eq_true]
    · have ha' : (a.1 == k) = false := by simp [ha]
      simp only [List.map_cons, List.any_cons, ha', Bool.false_or, reduceIte,
        List.find?, ih]
      simp [ha']

theorem find?_append_single (k : String) (v : String × String)
    (d : List MappingRule) (h : d.any (fun e => e.1 == k) = false) :
    ((d ++ [(k, v.1, v.2)]).find? (fun e => e.1 == k)) = some (k, v.1, v.2) := by
  rw [find?_append_of_false]
  · simp [List.find?]
  · intro x hx
    rcases List.any_eq_false.mp h x hx with hxk
    simpa using hxk

theorem find?_dictInsert (d : List MappingRule) (k : String)
    (v : String × String) :
    (dictInsert d k v).find? (fun e => e.1 == k) = some (k, v.1, v.2) := by
  unfold dictInsert
  cases hany : d.any (fun e => e.1 == k) with
  | true => simp only [if_true, find?_overwriteMap, hany]
  | false => simp only [if_false, Bool.false_eq_true, find?_append_single _ _ _ hany]

theorem dictInsert_keys_of_mem (d : List MappingRule) (k : String)
    (v : String × String) (h : d.any (fun e => e.1 == k) = true) :
    (dictInsert d k v).map (fun e => e.1) = d.map (fun e => e.1) := by
  simp only [dictInsert, h, if_true, List.map_map]
  apply List.map_congr_left
  intro e _
  by_cases hek : e.1 = k
  · simp [Function.comp, hek]
  · simp [Function.comp, hek]

theorem dictInsert_keys_of_not_mem (d : List MappingRule) (k : String)
    (v : String × String) (h : d.any (fun e => e.1 == k) = false) :
    (dictInsert d k v).map (fun e => e.1) = d.map (fun e => e.1) ++ [k] := by
  simp [dictInsert, h]

theorem dictInsert_keys_nodup (d : List MappingRule) (k : String)
    (v : String × String) (h : (d.map (fun e => e.1)).Nodup) :
    ((dictInsert d k v).map (fun e => e.1)).Nodup := by
  cases hany : d.any (fun e => e.1 == k) with
  | true => rw [dictInsert_keys_of_mem _ _ _ hany]; exact h
  | false =>
    rw [dictInsert_keys_of_not_mem _ _ _ hany]
    have hk : k ∉ d.map (fun e => e.1) := by
      intro hmem
      rcases List.mem_map.mp hmem with ⟨e, he, hek⟩
      have := List.any_eq_false.mp hany e he
      simp [hek] at this
    simp [List.nodup_append, h, hk]

theorem parseMappingLine_keys_nodup (acc : List MappingRule) (line : String)
    (h : (acc.map (fun e => e.1)).Nodup) :
    ((parseMappingLine acc line).map (fun e => e.1)).Nodup := by
  unfold parseMappingLine
  rcases hr : parsedRuleOfLine line with _ | ⟨k, st, sp⟩
  · exact h
  · exact dictInsert_keys_nodup _ _ _ h

theorem parseLines_keys_nodup_aux (lines : List String) :
    ∀ acc : List MappingRule, (acc.map (fun e => e.1)).Nodup →
      ((lines.foldl parseMappingLine acc).map (fun e => e.1)).Nodup := by
  induction lines with
  | nil => intro acc h; exact h
  | cons l ls ih =>
    intro acc h
    simp only [List.foldl_cons]
    exact ih _ (parseMappingLine_keys_nodup _ _ h)

/-- C10: two lines with an identical sourceRoot collapse to a single table
entry — parsed keys are always distinct — and the retained entry carries the
backend type and target root of the last such line, which resolution then
uses. -/
theorem C10_duplicate_roots_overwrite :
    (∀ m : String, ((parse_strm_path_mappings m).map (fun e => e.1)).Nodup)
    ∧ (∀ (acc : List MappingRule) (line k st sp : String),
        parsedRuleOfLine line = some (k, st, sp) →
        (parseMappingLine acc line).find? (fun e => e.1 == k) = some (k, st, sp))
    ∧ parse_strm_path_mappings "/a:/x\n/a:/y" = [("/a", "local", "/y")]
    ∧ parse_strm_path_mappings "/a:/x\n/b:/z\n/a:/y"
        = [("/a", "local", "/y"), ("/b", "local", "/z")]
    ∧ get_target_path "/a:/x\n/a:/y" "/a/movie.mkv" true
        = some ("local", "/y/movie.mkv") := by
  refine ⟨?_, ?_, by decide, by decide, by decide⟩
  · intro m
    unfold parse_strm_path_mappings
    split
    · simp
    · exact parseLines_keys_nodup_aux _ [] (by simp)
  · intro acc line k st sp h
    unfold parseMappingLine
    rw [h]
    exact find?_dictInsert acc k (st, sp)

/-- C10 witness: assigning the duplicate line `/a:/y` over a table already
holding `/a` leaves the entry for `/a` carrying the new value. -/
theorem C10_duplicate_roots_overwrite_witness :
    (parseMappingLine [("/a", "local", "/x")] "/a:/y").find?
      (fun e => e.1 == "/a") = some ("/a", "local", "/y") :=
  C10_duplicate_roots_overwrite.2.1 [("/a", "local", "/x")] "/a:/y" "/a"
    "local" "/y" (by decide)

/-- Demonstration listing for basename matching: two videos sharing the stem
`movie` plus a `movie2` decoy. -/
def demoListing3 : List FileItem :=
  [{ storage := "local", path := "/x/movie.mkv", name := "movie.mkv", type := "file" },
   { storage := "local", path := "/x/movie.mp4", name := "movie.mp4", type := "file" },
   { storage := "local", path := "/x/movie2.mkv", name := "movie2.mkv", type := "file" }]

/-- A gateway whose only directory holds `demoListing3`. -/
def demoChain3 : StorageChain :=
  { existsDir := fun _ => true,
    listFiles := fun _ => demoListing3,
    deleteFile := fun _ => Except.ok true }

/-- C3: basename matching returns exactly the file-kind entries whose
extension-stripped name equals the basename and whose extension,
lower-cased, is an allowed video extension — all of them, and no entry with
a different stem; on `movie.mkv`, `movie.mp4`, `movie2.mkv` with basename
`movie` it returns the first two. -/
theorem C3_basename_matching (chain : StorageChain)
    (storage_type target_path : String)
    (hx : chain.existsDir (dirItemOfTarget storage_type target_path) = true) :
    find_video_by_basename chain storage_type target_path
      = (chain.listFiles (dirItemOfTarget storage_type target_path)).filter
          (videoMatch (pathName target_path))
    ∧ (∀ f : FileItem,
        f ∈ find_video_by_basename chain storage_type target_path ↔
          (f ∈ chain.listFiles (dirItemOfTarget storage_type target_path)
            ∧ f.type = "file"
            ∧ pyStem f.name = pathName target_path
            ∧ VIDEO_EXTENSIONS.contains (pyLower (pySuffix f.name)) = true))
    ∧ find_video_by_basename demoChain3 "local" "/x/movie"
        = [{ storage := "local", path := "/x/movie.mkv", name := "movie.mkv",
             type := "file" },
           { storage := "local", path := "/x/movie.mp4", name := "movie.mp4",
             type := "file" }] := by
  refine ⟨?_, ?_, by decide⟩
  · simp [find_video_by_basename, hx]
  · intro f
    simp [find_video_by_basename, hx, List.mem_filter, videoMatch, and_assoc]

/-- C3 witness: the filter characterisation evaluated on the demonstration
gateway at target basename `movie`. -/
theorem C3_basename_matching_witness :
    find_video_by_basename demoChain3 "local" "/x/movie"
      = (demoChain3.listFiles (dirItemOfTarget "local" "/x/movie")).filter
          (videoMatch (pathName "/x/movie")) :=
  (C3_basename_matching demoChain3 "local" "/x/movie" (by decide)).1

/-- Demonstration listing for exact-name matching: `movie.srt` and
`movie.en.srt`. -/
def demoListing4 : List FileItem :=
  [{ storage := "local", path := "/x/movie.srt", name := "movie.srt", type := "file" },
   { storage := "local", path := "/x/movie.en.srt", name := "movie.en.srt", type := "file" }]

/-- A gateway whose only directory holds `demoListing4`. -/
def demoChain4 : StorageChain :=
  { existsDir := fun _ => true,
    listFiles := fun _ => demoListing4,
    deleteFile := fun _ => Except.ok true }

/-- C4: exact-name matching returns the first file-kind entry whose name
equals the sought filename verbatim (case-sensitive, extension included) and
`none` when nothing matches; with `movie.srt`/`movie.en.srt` the lookup of
`movie.srt` returns only that entry and `movie.ass` returns nothing, and a
subtitle-deletion event attempts at most one delete. -/
theorem C4_exact_name_single_result (chain : StorageChain)
    (storage_type target_path : String)
    (hx : chain.existsDir (dirItemOfTarget storage_type target_path) = true) :
    find_file_by_full_name chain storage_type target_path
      = (chain.listFiles (dirItemOfTarget storage_type target_path)).find?
          (fun f => f.type == "file" && f.name == pathName target_path)
    ∧ (∀ f : FileItem,
        find_file_by_full_name chain storage_type target_path = some f →
          f.type = "file" ∧ f.name = pathName target_path)
    ∧ (find_file_by_full_name chain storage_type target_path = none ↔
        ∀ f ∈ chain.listFiles (dirItemOfTarget storage_type target_path),
          (f.type == "file" && f.name == pathName target_path) = false)
    ∧ (∀ (notify : Bool) (m p : String) (chain2 : StorageChain),
        (handle_subtitle_deleted notify m chain2 p).attempts.length ≤ 1)
    ∧ find_file_by_full_name demoChain4 "local" "/x/movie.srt"
        = some { storage := "local", path := "/x/movie.srt", name := "movie.srt",
                 type := "file" }
    ∧ find_file_by_full_name demoChain4 "local" "/x/movie.ass" = none := by
  have heq : find_file_by_full_name chain storage_type target_path
      = (chain.listFiles (dirItemOfTarget storage_type target_path)).find?
          (fun f => f.type == "file" && f.name == pathName target_path) := by
    simp [find_file_by_full_name, hx]
  refine ⟨heq, ?_, ?_, ?_, by decide, by decide⟩
  · intro f hf
    rw [heq] at hf
    have := List.find?_some hf
    simpa using this
  · rw [heq]
    rw [List.find?_eq_none]
    constructor
    · intro hall f hf
      have := hall f hf
      simpa using this
    · intro hall f hf
      simp [hall f hf]
  · intro notify m p chain2
    unfold handle_subtitle_deleted
    split
    · simp
    · split
      · simp
      · split
        · simp
        · simp

/-- C4 witness: the find-first characterisation evaluated on the
demonstration gateway at target `movie.srt`. -/
theorem C4_exact_name_single_result_witness :
    find_file_by_full_name demoChain4 "local" "/x/movie.srt"
      = (demoChain4.listFiles (dirItemOfTarget "local" "/x/movie.srt")).find?
          (fun f => f.type == "file" && f.name == pathName "/x/movie.srt") :=
  (C4_exact_name_single_result demoChain4 "local" "/x/movie.srt" (by decide)).1

/-- C6: when the gateway reports the parent directory absent, exact-name
matching returns `none` and basename matching returns `[]`, and neither
result depends on the listing or delete capabilities — the directory is
never listed and no error is raised. -/
theorem C6_absent_directory_not_found (storage_type target_path : String)
    (e : FileItem → Bool) (l l2 : FileItem → List FileItem)
    (d d2 : FileItem → Except String Bool)
    (h : e (dirItemOfTarget storage_type target_path) = false) :
    find_file_by_full_name ⟨e, l, d⟩ storage_type target_path = none
    ∧ find_video_by_basename ⟨e, l, d⟩ storage_type target_path = []
    ∧ find_file_by_full_name ⟨e, l, d⟩ storage_type target_path
        = find_file_by_full_name ⟨e, l2, d2⟩ storage_type target_path
    ∧ find_video_by_basename ⟨e, l, d⟩ storage_type target_path
        = find_video_by_basename ⟨e, l2, d2⟩ storage_type target_path := by
  refine ⟨?_, ?_, ?_, ?_⟩ <;>
    simp [find_file_by_full_name, find_video_by_basename, h]

/-- C6 witness: a gateway that reports every directory absent on the
subtitle target `movie.srt`. -/
theorem C6_absent_directory_not_found_witness :
    find_file_by_full_name
      ⟨fun _ => false, fun _ => [], fun _ => Except.ok true⟩
      "local" "/x/movie.srt" = none :=
  (C6_absent_directory_not_found "local" "/x/movie.srt"
    (fun _ => false) (fun _ => []) (fun _ => [])
    (fun _ => Except.ok true) (fun _ => Except.ok true) (by decide)).1

theorem length_filterMap_if {α β : Type} (g : α × Bool → β)
    (l : List (α × Bool)) :
    (l.filterMap (fun a => if a.2 then some (g a) else none)).length
      = (l.filter (fun a => a.2)).length := by
  induction l with
  | nil => rfl
  | cons a as ih =>
    cases ha : a.2 <;> simp [List.filterMap_cons, List.filter_cons, ha, ih]

theorem filterMap_if_ne_nil_iff {α β : Type} (g : α × Bool → β)
    (l : List (α × Bool)) :
    l.filterMap (fun a => if a.2 then some (g a) else none) ≠ []
      ↔ ∃ a ∈ l, a.2 = true := by
  induction l with
  | nil => simp
  | cons a as ih =>
    cases ha : a.2 <;> simp [List.filterMap_cons, ha, ih]

/-- A video demo file whose backend delete raises. -/
def demoFile7a : FileItem :=
  { storage := "local", path := "/x/movie.mkv", name := "movie.mkv", type := "file" }

/-- A video demo file whose backend delete succeeds. -/
def demoFile7b : FileItem :=
  { storage := "local", path := "/x/movie.mp4", name := "movie.mp4", type := "file" }

/-- A gateway holding both demo videos whose delete raises on the first and
succeeds on the second. -/
def demoChain7 : StorageChain :=
  { existsDir := fun _ => true,
    listFiles := fun _ => [demoFile7a, demoFile7b],
    deleteFile := fun f =>
      if f.name == "movie.mkv" then Except.error "boom" else Except.ok true }

/-- C7: deletion is attempted independently for every matched entry — the
attempt list maps each matched video to its own delete outcome, a raising
gateway call is caught and recorded as failure, the recorded successes are
exactly the succeeding attempts, and on a batch whose first delete raises
and second succeeds the outcome is one failure and one recorded success. -/
theorem C7_batch_resilience (notify : Bool)
    (m p storage_type target_path : String) (chain : StorageChain)
    (hres : get_target_path m p false = some (storage_type, target_path))
    (hst : storage_type ≠ "") (htp : target_path ≠ "") :
    (handle_strm_deleted notify m chain p).attempts
      = (find_video_by_basename chain storage_type target_path).map
          (fun v => (v, delete_file chain v))
    ∧ (handle_strm_deleted notify m chain p).deleted_files.length
      = ((handle_strm_deleted notify m chain p).attempts.filter
          (fun a => a.2)).length
    ∧ (∀ (f : FileItem) (err : String),
        chain.deleteFile f = Except.error err → delete_file chain f = false)
    ∧ (handle_strm_deleted true "/a:/x" demoChain7 "/a/movie.strm").attempts
        = [(demoFile7a, false), (demoFile7b, true)]
    ∧ (handle_strm_deleted true "/a:/x" demoChain7
        "/a/movie.strm").deleted_files.length = 1 := by
  have hbe : (storage_type == "" || target_path == "") = false := by
    simp [hst, htp]
  refine ⟨?_, ?_, ?_, by decide, by decide⟩
  · simp [handle_strm_deleted, hres, hbe]
  · simp only [handle_strm_deleted, hres, hbe]
    rw [if_neg Bool.false_ne_true]
    dsimp only
    rw [length_filterMap_if]
  · intro f err h
    simp [delete_file, h]

/-- C7 witness: the per-entry attempt map evaluated on the two-video demo
gateway whose first delete raises. -/
theorem C7_batch_resilience_witness :
    (handle_strm_deleted true "/a:/x" demoChain7 "/a/movie.strm").attempts
      = (find_video_by_basename demoChain7 "local" "/x/movie").map
          (fun v => (v, delete_file demoChain7 v)) :=
  (C7_batch_resilience true "/a:/x" "/a/movie.strm" "local" "/x/movie"
    demoChain7 (by decide) (by decide) (by decide)).1

theorem handle_strm_notified_eq (notify : Bool) (m : String)
    (chain : StorageChain) (p : String) :
    (handle_strm_deleted notify m chain p).notified
      = (notify && !(handle_strm_deleted notify m chain p).deleted_files.isEmpty) := by
  unfold handle_strm_deleted
  split
  · simp
  · split
    · simp
    · simp

theorem handle_subtitle_notified_eq (notify : Bool) (m : String)
    (chain : StorageChain) (p : String) :
    (handle_subtitle_deleted notify m chain p).notified
      = (notify && !(handle_subtitle_deleted notify m chain p).deleted_files.isEmpty) := by
  unfold handle_subtitle_deleted
  split
  · simp
  · split
    · simp
    · split
      · simp
      · simp

theorem handle_strm_deleted_files_iff (notify : Bool) (m : String)
    (chain : StorageChain) (p : String) :
    (handle_strm_deleted notify m chain p).deleted_files ≠ []
      ↔ ∃ a ∈ (handle_strm_deleted notify m chain p).attempts, a.2 = true := by
  unfold handle_strm_deleted
  split
  · simp
  · split
    · simp
    · dsimp only
      exact filterMap_if_ne_nil_iff _ _

theorem handle_subtitle_deleted_files_iff (notify : Bool) (m : String)
    (chain : StorageChain) (p : String) :
    (handle_subtitle_deleted notify m chain p).deleted_files ≠ []
      ↔ ∃ a ∈ (handle_subtitle_deleted notify m chain p).attempts, a.2 = true := by
  unfold handle_subtitle_deleted
  split
  · simp
  · split
    · simp
    · split
      · simp
      · rename_i f hf
        cases hok : delete_file chain f <;> simp [hok]

/-- C8: for both handlers, a notification is posted if and only if the
notify flag is on and at least one deletion succeeded; with notification
disabled, with every delete failing, or with nothing matched, the recorded
success list is empty and no notification is sent. -/
theorem C8_notify_iff_success (notify : Bool) (m : String)
    (chain : StorageChain) (p q : String) :
    ((handle_strm_deleted notify m chain p).notified = true ↔
      (notify = true ∧ (handle_strm_deleted notify m chain p).deleted_files ≠ []))
    ∧ ((handle_strm_deleted notify m chain p).deleted_files ≠ [] ↔
        ∃ a ∈ (handle_strm_deleted notify m chain p).attempts, a.2 = true)
    ∧ ((handle_subtitle_deleted notify m chain q).notified = true ↔
      (notify = true ∧ (handle_subtitle_deleted notify m chain q).deleted_files ≠ []))
    ∧ ((handle_subtitle_deleted notify m chain q).deleted_files ≠ [] ↔
        ∃ a ∈ (handle_subtitle_deleted notify m chain q).attempts, a.2 = true) := by
  refine ⟨?_, handle_strm_deleted_files_iff notify m chain p, ?_,
    handle_subtitle_deleted_files_iff notify m chain q⟩
  · rw [handle_strm_notified_eq]
    simp [List.isEmpty_iff]
  · rw [handle_subtitle_notified_eq]
    simp [List.isEmpty_iff]

/-- C9: a deletion event whose path carries a temporary-file suffix or
contains a configured exclusion keyword as a literal substring is skipped
before classification: the dispatcher returns skip, the pipeline produces
the empty outcome, and the result is independent of the storage gateway —
no resolution, listing or delete happens. -/
theorem C9_exclusion_skips (notify : Bool) (ek m p : String)
    (chain : StorageChain) (is_directory : Bool)
    (h : TEMP_SUFFIXES.contains (pySuffix (pathName p)) = true
      ∨ ∃ kw ∈ pySplit '\n' ek, kw ≠ "" ∧ pyContains p kw = true) :
    is_excluded_file ek p = true
    ∧ on_deleted ek is_directory p = DispatchAction.skip
    ∧ process_event notify ek m chain is_directory p = {}
    ∧ (∀ chain2 : StorageChain,
        process_event notify ek m chain is_directory p
          = process_event notify ek m chain2 is_directory p) := by
  have hex : is_excluded_file ek p = true := by
    cases htemp : TEMP_SUFFIXES.contains (pySuffix (pathName p)) with
    | true =>
      unfold is_excluded_file
      rw [htemp]
      simp
    | false =>
      rcases h with h | ⟨kw, hkwmem, hkwne, hkwin⟩
      · rw [htemp] at h
        exact Bool.noConfusion h
      · have hek : ek ≠ "" := by
          intro he
          rw [he] at hkwmem
          have hempty : pySplit '\n' "" = [""] := by decide
          rw [hempty] at hkwmem
          simp at hkwmem
          exact hkwne hkwmem
        simp only [is_excluded_file, htemp]
        rw [if_neg (by simp), if_pos (by simp [hek])]
        rw [List.any_eq_true]
        exact ⟨kw, hkwmem, by simp [hkwne, hkwin]⟩
  have hskip : on_deleted ek is_directory p = DispatchAction.skip := by
    unfold on_deleted
    cases is_directory with
    | true => rfl
    | false => simp [hex]
  refine ⟨hex, hskip, ?_, ?_⟩
  · simp [process_event, hskip]
  · intro chain2
    simp [process_event, hskip]

/-- C9 witness: the exclusion keyword `movie` suppresses processing of
`/a/movie.strm` entirely. -/
theorem C9_exclusion_skips_witness :
    process_event true "movie" "/a:/x"
      ⟨fun _ => true, fun _ => [], fun _ => Except.ok true⟩
      false "/a/movie.strm" = {} :=
  (C9_exclusion_skips true "movie" "/a:/x" "/a/movie.strm"
    ⟨fun _ => true, fun _ => [], fun _ => Except.ok true⟩ false
    (Or.inr ⟨"movie", by decide, by decide, by decide⟩)).2.2.1
